import Mathlib

/-!
Shallow embedding of the POLP Visit Integrity & Badge-Claim Engine.

Sources embedded here (JavaScript / Solidity):
* `backend/utils/hashUtils.js` — `HashUtils.createVisitHash`, `HashUtils.verifyVisitHash`
  (SHA-256 over a canonical JSON serialization of the normalized visit fields);
* `backend/services/gpsService.js` — `GPSService.validateCoordinates`,
  `GPSService.validateGPSAccuracy`;
* `backend/services/nftService.js` — `NFTService.generateBadgeId` (keccak-256 of
  `nfcTagId + locationName`, reduced modulo 10000), `NFTService.mintBadge`;
* `backend/controllers/visitController.js` — `VisitController.createVisit`,
  `VisitController.verifyVisitForNFT`;
* `backend/controllers/badgeController.js` — `BadgeController.mintBadge`;
* `backend/services/walletService.js` — `WalletService.generateAuthChallenge`;
* `backend/contracts/POLPBadge.sol` — `POLPBadge.claimBadge` / `POLPBadge.claimed`.

Modelling conventions: JavaScript numbers are modelled as exact rationals (`ℚ`);
a value that `parseFloat` turns into `NaN` is modelled as `none`.  Timestamps are
epoch milliseconds (`Int`); `Date.prototype.toISOString` is implemented exactly
(proleptic Gregorian).  SHA-256 and Keccak-256 are implemented bit-faithfully
(FIPS 180-4 resp. original Keccak padding as used by `ethers.keccak256`).
External collaborators (database reads, IPFS contents, ledger reads) enter the
embedded controller functions as explicit arguments, mirroring the value each
awaited call returns; the database itself is a list of records, and the unique
index on `visitHash` is the membership test performed at `Visit.create`.
-/

set_option maxRecDepth 100000

/-! ## Machine-word helpers (32/64-bit arithmetic as `Nat` with explicit masking) -/

def mask32 : Nat := 0xffffffff
def mask64 : Nat := 0xffffffffffffffff

def rotr32 (n x : Nat) : Nat := ((x >>> n) ||| (x <<< (32 - n))) &&& mask32

def rotl64 (n x : Nat) : Nat := ((x <<< n) ||| (x >>> (64 - n))) &&& mask64

/-! ## SHA-256 (FIPS 180-4), as used by node `crypto.createHash('sha256')` -/

def bigSigma0 (x : Nat) : Nat := rotr32 2 x ^^^ rotr32 13 x ^^^ rotr32 22 x

def bigSigma1 (x : Nat) : Nat := rotr32 6 x ^^^ rotr32 11 x ^^^ rotr32 25 x

def smallSigma0 (x : Nat) : Nat := rotr32 7 x ^^^ rotr32 18 x ^^^ (x >>> 3)

def smallSigma1 (x : Nat) : Nat := rotr32 17 x ^^^ rotr32 19 x ^^^ (x >>> 10)

/-- The 64 SHA-256 round constants, packed big-endian into one 2048-bit
literal (word `i` is bits `[32*(63-i), 32*(64-i))`). -/
def shaKpacked : Nat :=
  0x428a2f9871374491b5c0fbcfe9b5dba53956c25b59f111f1923f82a4ab1c5ed5d807aa9812835b01243185be550c7dc372be5d7480deb1fe9bdc06a7c19bf174e49b69c1efbe47860fc19dc6240ca1cc2de92c6f4a7484aa5cb0a9dc76f988da983e5152a831c66db00327c8bf597fc7c6e00bf3d5a7914706ca63511429296727b70a852e1b21384d2c6dfc53380d13650a7354766a0abb81c2c92e92722c85a2bfe8a1a81a664bc24b8b70c76c51a3d192e819d6990624f40e3585106aa07019a4c1161e376c082748774c34b0bcb5391c0cb34ed8aa4a5b9cca4f682e6ff3748f82ee78a5636f84c878148cc7020890befffaa4506cebbef9a3f7c67178f2

def shaK : List Nat :=
  (List.range 64).map (fun i => (shaKpacked >>> (32 * (63 - i))) &&& mask32)

structure ShaState where
  a : Nat
  b : Nat
  c : Nat
  d : Nat
  e : Nat
  f : Nat
  g : Nat
  h : Nat

def shaInit : ShaState :=
  ⟨0x6a09e667, 0xbb67ae85, 0x3c6ef372, 0xa54ff53a, 0x510e527f, 0x9b05688c, 0x1f83d9ab, 0x5be0cd19⟩

def shaRound (st : ShaState) (kw : Nat × Nat) : ShaState :=
  let t1 := (st.h + bigSigma1 st.e + ((st.e &&& st.f) ^^^ ((st.e ^^^ mask32) &&& st.g))
             + kw.1 + kw.2) &&& mask32
  let t2 := (bigSigma0 st.a + ((st.a &&& st.b) ^^^ (st.a &&& st.c) ^^^ (st.b &&& st.c))) &&& mask32
  ⟨(t1 + t2) &&& mask32, st.a, st.b, st.c, (st.d + t1) &&& mask32, st.e, st.f, st.g⟩

def schedExt : Nat → List Nat → List Nat
  | 0, rw => rw
  | k + 1, rw =>
    let s0 := smallSigma0 (rw.getD 14 0)
    let s1 := smallSigma1 (rw.getD 1 0)
    let nw := (rw.getD 15 0 + s0 + rw.getD 6 0 + s1) &&& mask32
    schedExt k (nw :: rw)

def msgSchedule (block : List Nat) : List Nat :=
  (schedExt 48 block.reverse).reverse

/-- Split a list into consecutive chunks of `n` elements (fuel-driven). -/
def chunkAux (n : Nat) : Nat → List Nat → List (List Nat)
  | 0, _ => []
  | _ + 1, [] => []
  | fuel + 1, l => l.take n :: chunkAux n fuel (l.drop n)

def chunkList (n : Nat) (l : List Nat) : List (List Nat) :=
  chunkAux n l.length l

def wordsOfBytesBE : List Nat → List Nat
  | b0 :: b1 :: b2 :: b3 :: rest =>
      (((b0 <<< 8 ||| b1) <<< 8 ||| b2) <<< 8 ||| b3) :: wordsOfBytesBE rest
  | _ => []

def wordToBytesBE (w : Nat) : List Nat :=
  [(w >>> 24) &&& 0xff, (w >>> 16) &&& 0xff, (w >>> 8) &&& 0xff, w &&& 0xff]

def shaPad (msg : List Nat) : List Nat :=
  let len := msg.length
  let k := (119 - (len % 64)) % 64
  let bitLen := len * 8
  msg ++ [0x80] ++ List.replicate k 0 ++
    [(bitLen >>> 56) &&& 0xff, (bitLen >>> 48) &&& 0xff, (bitLen >>> 40) &&& 0xff,
     (bitLen >>> 32) &&& 0xff, (bitLen >>> 24) &&& 0xff, (bitLen >>> 16) &&& 0xff,
     (bitLen >>> 8) &&& 0xff, bitLen &&& 0xff]

def shaCompress (st : ShaState) (block : List Nat) : ShaState :=
  let w := msgSchedule block
  let r := (shaK.zip w).foldl shaRound st
  ⟨(st.a + r.a) &&& mask32, (st.b + r.b) &&& mask32, (st.c + r.c) &&& mask32,
   (st.d + r.d) &&& mask32, (st.e + r.e) &&& mask32, (st.f + r.f) &&& mask32,
   (st.g + r.g) &&& mask32, (st.h + r.h) &&& mask32⟩

def sha256 (msg : List Nat) : List Nat :=
  let blocks := chunkList 64 (shaPad msg)
  let st := blocks.foldl (fun s b => shaCompress s (wordsOfBytesBE b)) shaInit
  wordToBytesBE st.a ++ wordToBytesBE st.b ++ wordToBytesBE st.c ++ wordToBytesBE st.d ++
  wordToBytesBE st.e ++ wordToBytesBE st.f ++ wordToBytesBE st.g ++ wordToBytesBE st.h

def hexDigit (n : Nat) : Char :=
  if n < 10 then Char.ofNat (48 + n) else Char.ofNat (87 + n)

def byteToHex (b : Nat) : String :=
  ⟨[hexDigit (b / 16), hexDigit (b % 16)]⟩

def bytesToHex : List Nat → String
  | [] => ""
  | b :: bs => byteToHex b ++ bytesToHex bs

/-- UTF-8 encoding of a string, as the byte stream node/`ethers` hash. -/
def utf8Bytes (s : String) : List Nat :=
  s.data.flatMap (fun c =>
    let n := c.toNat
    if n < 0x80 then [n]
    else if n < 0x800 then [0xc0 ||| (n >>> 6), 0x80 ||| (n &&& 0x3f)]
    else if n < 0x10000 then
      [0xe0 ||| (n >>> 12), 0x80 ||| ((n >>> 6) &&& 0x3f), 0x80 ||| (n &&& 0x3f)]
    else
      [0xf0 ||| (n >>> 18), 0x80 ||| ((n >>> 12) &&& 0x3f),
       0x80 ||| ((n >>> 6) &&& 0x3f), 0x80 ||| (n &&& 0x3f)])

/-- Hex digest of SHA-256, i.e. `crypto.createHash('sha256').update(s,'utf8').digest('hex')`. -/
def sha256hex (s : String) : String :=
  bytesToHex (sha256 (utf8Bytes s))

/-! ## Keccak-256 (original Keccak padding `0x01`, as `ethers.keccak256`) -/

def keccakRC : List Nat :=
  [0x0000000000000001, 0x0000000000008082, 0x800000000000808a, 0x8000000080008000,
   0x000000000000808b, 0x0000000080000001, 0x8000000080008081, 0x8000000000008009,
   0x000000000000008a, 0x0000000000000088, 0x0000000080008009, 0x000000008000000a,
   0x000000008000808b, 0x800000000000008b, 0x8000000000008089, 0x8000000000008003,
   0x8000000000008002, 0x8000000000000080, 0x000000000000800a, 0x800000008000000a,
   0x8000000080008081, 0x8000000000008080, 0x0000000080000001, 0x8000000080008008]

def rhoOff (x y : Nat) : Nat :=
  ([[0, 36, 3, 41, 18],
    [1, 44, 10, 45, 2],
    [62, 6, 43, 15, 61],
    [28, 55, 25, 21, 56],
    [27, 20, 39, 8, 14]].getD x []).getD y 0

def keccakRound (st : List Nat) (rc : Nat) : List Nat :=
  let A := fun x y => st.getD (x + 5 * y) 0
  let C := fun x => A x 0 ^^^ A x 1 ^^^ A x 2 ^^^ A x 3 ^^^ A x 4
  let D := fun x => C ((x + 4) % 5) ^^^ rotl64 1 (C ((x + 1) % 5))
  let A1 := fun x y => A x y ^^^ D x
  let B := (List.range 25).map (fun i =>
    let xB := i % 5
    let yB := i / 5
    let x := (3 * (yB + 5 - (3 * xB) % 5)) % 5
    let y := xB
    rotl64 (rhoOff x y) (A1 x y))
  let Bf := fun x y => B.getD (x + 5 * y) 0
  let chi := (List.range 25).map (fun i =>
    let x := i % 5
    let y := i / 5
    Bf x y ^^^ ((Bf ((x + 1) % 5) y ^^^ mask64) &&& Bf ((x + 2) % 5) y))
  match chi with
  | a0 :: rest => (a0 ^^^ rc) :: rest
  | [] => []

def keccakF (st : List Nat) : List Nat :=
  keccakRC.foldl keccakRound st

def laneOfBytesLE (bs : List Nat) : Nat :=
  bs.reverse.foldl (fun acc b => (acc <<< 8) ||| b) 0

def laneToBytesLE (w : Nat) : List Nat :=
  [w &&& 0xff, (w >>> 8) &&& 0xff, (w >>> 16) &&& 0xff, (w >>> 24) &&& 0xff,
   (w >>> 32) &&& 0xff, (w >>> 40) &&& 0xff, (w >>> 48) &&& 0xff, (w >>> 56) &&& 0xff]

def keccakPad (msg : List Nat) : List Nat :=
  let p := 136 - msg.length % 136
  if p = 1 then msg ++ [0x81]
  else msg ++ [0x01] ++ List.replicate (p - 2) 0 ++ [0x80]

def keccakAbsorbBlock (st : List Nat) (block : List Nat) : List Nat :=
  let lanes := (chunkList 8 block).map laneOfBytesLE
  let st1 := (List.range 25).map (fun i => st.getD i 0 ^^^ lanes.getD i 0)
  keccakF st1

def keccak256 (msg : List Nat) : List Nat :=
  let blocks := chunkList 136 (keccakPad msg)
  let st := blocks.foldl keccakAbsorbBlock (List.replicate 25 0)
  laneToBytesLE (st.getD 0 0) ++ laneToBytesLE (st.getD 1 0) ++
  laneToBytesLE (st.getD 2 0) ++ laneToBytesLE (st.getD 3 0)

/-- Keccak-256 hex digest of a string with the `0x` prefix, as `ethers.keccak256(ethers.toUtf8Bytes s)`. -/
def keccak256hex (s : String) : String :=
  "0x" ++ bytesToHex (keccak256 (utf8Bytes s))

/-! ## JavaScript string/number rendering helpers -/

def padZeros (width n : Nat) : String :=
  let s := toString n
  String.mk (List.replicate (width - s.length) '0') ++ s

/-- Proleptic Gregorian civil date from days since 1970-01-01 (year, month, day). -/
def civilFromDays (z0 : Int) : Int × Nat × Nat :=
  let z := z0 + 719468
  let era : Int := (if 0 ≤ z then z else z - 146096).tdiv 146097
  let doe : Nat := (z - era * 146097).toNat
  let yoe : Nat := (doe - doe / 1460 + doe / 36524 - doe / 146096) / 365
  let doy : Nat := doe - (365 * yoe + yoe / 4 - yoe / 100)
  let mp : Nat := (5 * doy + 2) / 153
  let d : Nat := doy - (153 * mp + 2) / 5 + 1
  let m : Nat := if mp < 10 then mp + 3 else mp - 9
  (((yoe : Int) + era * 400 + (if m ≤ 2 then 1 else 0)), m, d)

/-- `new Date(ms).toISOString()` for epoch milliseconds. -/
def isoString (ms : Int) : String :=
  let days : Int := ms.fdiv 86400000
  let msod : Nat := (ms.emod 86400000).toNat
  let ymd := civilFromDays days
  padZeros 4 ymd.1.toNat ++ "-" ++ padZeros 2 ymd.2.1 ++ "-" ++ padZeros 2 ymd.2.2 ++ "T" ++
  padZeros 2 (msod / 3600000) ++ ":" ++ padZeros 2 (msod % 3600000 / 60000) ++ ":" ++
  padZeros 2 (msod % 60000 / 1000) ++ "." ++ padZeros 3 (msod % 1000) ++ "Z"

/-- `Number.prototype.toFixed(8)` on an exact rational (sign first, then
round-to-nearest with ties away from zero on the magnitude, per ECMA-262). -/
def toFixed8q (q : ℚ) : String :=
  let sign := if q < 0 then "-" else ""
  let m : Nat := (Int.floor (|q| * 100000000 + 1 / 2)).toNat
  sign ++ toString (m / 100000000) ++ "." ++ padZeros 8 (m % 100000000)

/-- `parseFloat(x).toFixed(8)`: a non-numeric input (`NaN`) renders as `"NaN"`. -/
def toFixed8 : Option ℚ → String
  | none => "NaN"
  | some q => toFixed8q q

/-- JSON escaping of one character, as `JSON.stringify` does for BMP text. -/
def jsonEscapeChar (c : Char) : List Char :=
  if c = '"' then ['\\', '"']
  else if c = '\\' then ['\\', '\\']
  else if c = Char.ofNat 8 then ['\\', 'b']
  else if c = Char.ofNat 9 then ['\\', 't']
  else if c = Char.ofNat 10 then ['\\', 'n']
  else if c = Char.ofNat 12 then ['\\', 'f']
  else if c = Char.ofNat 13 then ['\\', 'r']
  else if c.toNat < 0x20 then '\\' :: 'u' :: '0' :: '0' :: (byteToHex c.toNat).data
  else [c]

/-- A JSON string literal (quotes included), as `JSON.stringify` renders a string value. -/
def jsonStr (s : String) : String :=
  "\"" ++ String.mk (s.data.flatMap jsonEscapeChar) ++ "\""

/-! ## Visit fingerprint engine (`hashUtils.createVisitHash` / `verifyVisitHash`) -/

/-- The fields of `visitData` that `createVisitHash` consumes.  `latitude` and
`longitude` are `none` when `parseFloat` would yield `NaN`; `timestamp` is epoch
milliseconds; `locationName`/`description` are carried along (and ignored by the
hash, as in the source, which picks exactly five properties). -/
structure VisitData where
  userId : Nat
  nfcTagId : String
  latitude : Option ℚ
  longitude : Option ℚ
  timestamp : Int
  locationName : Option String
  description : Option String
deriving DecidableEq

/-- The deterministic serialization built by `createVisitHash`:
`JSON.stringify(normalizedData, Object.keys(normalizedData).sort())` — a JSON
object whose keys appear in sorted order
(latitude, longitude, nfcTagId, timestamp, userId). -/
def canonicalVisitString (d : VisitData) : String :=
  "\x7b\"latitude\":" ++ jsonStr (toFixed8 d.latitude) ++
  ",\"longitude\":" ++ jsonStr (toFixed8 d.longitude) ++
  ",\"nfcTagId\":" ++ jsonStr d.nfcTagId ++
  ",\"timestamp\":" ++ jsonStr (isoString d.timestamp) ++
  ",\"userId\":" ++ toString d.userId ++ "\x7d"

/-- `HashUtils.createVisitHash`: SHA-256 hex digest of the canonical serialization. -/
def createVisitHash (d : VisitData) : String :=
  sha256hex (canonicalVisitString d)

/-- `HashUtils.verifyVisitHash`: recompute and compare with the stored hash. -/
def verifyVisitHash (d : VisitData) (storedHash : String) : Bool :=
  createVisitHash d == storedHash

/-! ## Geospatial validator (`gpsService.js`) -/

/-- `GPSService.validateCoordinates`: `parseFloat` both values (`none` = `NaN`),
check ranges, and reject null island `(0,0)`. -/
def validateCoordinates : Option ℚ → Option ℚ → Bool
  | some lat, some lng =>
    (decide (-90 ≤ lat) && decide (lat ≤ 90)) &&
    (decide (-180 ≤ lng) && decide (lng ≤ 180)) &&
    !(decide (lat = 0) && decide (lng = 0))
  | _, _ => false

/-- `GPSService.validateGPSAccuracy`: reject `NaN` and negative values, then
accept exactly the values not exceeding `maxAccuracy` (default 100). -/
def validateGPSAccuracy (accuracy : Option ℚ) (maxAccuracy : ℚ := 100) : Bool :=
  match accuracy with
  | none => false
  | some acc => if acc < 0 then false else decide (acc ≤ maxAccuracy)

/-! ## Visit admission (`VisitController.createVisit`) -/

inductive VStatus where
  | pending
  | verified
  | rejected
  | flagged
deriving DecidableEq

/-- A persisted row of the `visits` table (the fields the embedded control flow
reads or writes; `visitHash` carries the unique index of the model/migration). -/
structure VisitRec where
  userId : Nat
  nfcTagId : String
  latitude : Option ℚ
  longitude : Option ℚ
  locationName : Option String
  description : Option String
  visitHash : String
  isVerified : Bool
  verifiedAt : Option Int
  timestamp : Int
  createdAt : Int
  status : VStatus
deriving DecidableEq

/-- The request body of a visit attempt.  `timestamp` is `none` when the client
omits the field (the `timestamp || new Date().toISOString()` fallback fires);
`accuracy` is the `accuracyMeters` a client may report. -/
structure VisitAttempt where
  nfcTagId : String
  latitude : Option ℚ
  longitude : Option ℚ
  accuracy : Option ℚ
  timestamp : Option Int
  locationName : Option String
  description : Option String
deriving DecidableEq

/-- The `visitData` object `createVisit` builds: the claimed timestamp, or the
server's current time when the attempt omits one. -/
def mkVisitData (uid : Nat) (a : VisitAttempt) (now : Int) : VisitData :=
  ⟨uid, a.nfcTagId, a.latitude, a.longitude, a.timestamp.getD now,
   a.locationName, a.description⟩

/-- The recency-window duplicate query: same user, same NFC tag, created within
the last 30 minutes (`createdAt >= Date.now() - 30*60*1000`). -/
def recentDuplicate (now : Int) (uid : Nat) (a : VisitAttempt) (r : VisitRec) : Bool :=
  r.userId == uid && r.nfcTagId == a.nfcTagId && decide (now - 1800000 ≤ r.createdAt)

/-- Outcomes of `VisitController.createVisit`, one per HTTP response the handler
can produce: 400 invalid coordinates, 409 recent duplicate, 201 created, and the
catch-all 500 `Failed to create visit` (which is what a unique-constraint
violation on `visitHash` — or any other thrown error — surfaces as). -/
inductive CreateResult where
  | invalidLocation
  | duplicateVisit
  | genericError
  | created (v : VisitRec)
deriving DecidableEq

def isCreated : CreateResult → Bool
  | .created _ => true
  | _ => false

/-- `VisitController.createVisit` over a database `store`: validate coordinates,
run the recency duplicate check, compute the fingerprint, store the payload
off-box (content-addressed store, modelled as always succeeding), and insert the
row — the insert throws on a duplicate `visitHash` (unique index), which the
controller's catch turns into the generic 500. -/
def createVisit (now : Int) (uid : Nat) (store : List VisitRec) (a : VisitAttempt) :
    CreateResult × List VisitRec :=
  if !validateCoordinates a.latitude a.longitude then (.invalidLocation, store)
  else if store.any (recentDuplicate now uid a) then (.duplicateVisit, store)
  else
    let vd := mkVisitData uid a now
    let h := createVisitHash vd
    if store.any (fun r => r.visitHash == h) then (.genericError, store)
    else
      let v : VisitRec :=
        { userId := uid, nfcTagId := a.nfcTagId, latitude := a.latitude,
          longitude := a.longitude, locationName := a.locationName,
          description := a.description, visitHash := h, isVerified := false,
          verifiedAt := none, timestamp := vd.timestamp, createdAt := now,
          status := .pending }
      (.created v, v :: store)

/-! ## Visit verification (`VisitController.verifyVisitForNFT`) -/

/-- Outcomes of `verifyVisitForNFT`: 404, 409 already verified, 400 integrity
check failed, 200 verified. -/
inductive VerifyOutcome where
  | notFound
  | alreadyVerified
  | integrityFailed
  | verifiedOk
deriving DecidableEq

/-- `VisitController.verifyVisitForNFT`: `visit` is the database lookup result
and `payload` the visit data fetched back from the content store (possibly
tampered).  On an intact payload the update sets `isVerified`/`verifiedAt`
only; on a mismatch it answers 400 and writes nothing. -/
def verifyVisitForNFT (now : Int) (visit : Option VisitRec) (payload : VisitData) :
    VerifyOutcome × Option VisitRec :=
  match visit with
  | none => (.notFound, none)
  | some v =>
    if v.isVerified then (.alreadyVerified, some v)
    else if !verifyVisitHash payload v.visitHash then (.integrityFailed, some v)
    else (.verifiedOk, some { v with isVerified := true, verifiedAt := some now })

/-! ## Badge id derivation (`NFTService.generateBadgeId`) -/

/-- JavaScript string concatenation with a possibly-`null` right operand
(`visit.nfcTagId + visit.locationName`). -/
def jsAdd (s : String) (o : Option String) : String :=
  s ++ (match o with | some t => t | none => "null")

/-- Drop `i` characters, as `String.prototype.substring(i)`. -/
def jsSubstringFrom (i : Nat) (s : String) : String :=
  String.mk (s.data.drop i)

/-- `String.prototype.slice(a, b)`. -/
def jsSlice (a b : Nat) (s : String) : String :=
  String.mk ((s.data.drop a).take (b - a))

def hexCharVal : Char → Option Nat := fun c =>
  let n := c.toNat
  if 48 ≤ n ∧ n ≤ 57 then some (n - 48)
  else if 97 ≤ n ∧ n ≤ 102 then some (n - 87)
  else if 65 ≤ n ∧ n ≤ 70 then some (n - 55)
  else none

def parseHexDigits : List Char → Nat → Nat
  | [], acc => acc
  | c :: cs, acc =>
    match hexCharVal c with
    | some v => parseHexDigits cs (16 * acc + v)
    | none => acc

/-- `parseInt(s, 16)` on the strings this code feeds it (an optional `0x`
prefix followed by hex digits). -/
def parseHex16 (s : String) : Nat :=
  let l := if s.data.take 2 = ['0', 'x'] then s.data.drop 2 else s.data
  parseHexDigits l 0

/-- `NFTService.generateBadgeId`: keccak-256 of `nfcTagId + locationName`, first
32 bits of the digest (`parseInt(locationHash.slice(0, 10), 16)`), reduced
modulo 10000. -/
def generateBadgeId (v : VisitRec) : Nat :=
  let locationHash := keccak256hex (jsAdd v.nfcTagId v.locationName)
  parseHex16 (jsSlice 0 10 locationHash) % 10000

/-! ## Wallet auth challenge (`WalletService.generateAuthChallenge`) -/

/-- `WalletService.generateAuthChallenge`: the nonce is
`Math.random().toString(36).substring(7)`.  `randRendered` is the base-36
rendering `Math.random().toString(36)` of the PRNG output that call returns
(e.g. `"0.k2j4h..."`; the output `0` renders as `"0"`). -/
def generateAuthChallenge (walletAddress : String) (timestamp : Int)
    (randRendered : String) : String :=
  "POGPP Authentication Challenge\n\nWallet: " ++ walletAddress ++
  "\nTimestamp: " ++ toString timestamp ++
  "\nNonce: " ++ jsSubstringFrom 7 randRendered

/-! ## The ledger contract (`POLPBadge.sol`) -/

/-- On-chain state of `POLPBadge`: `hasClaimed[badgeId][wallet]` is membership
of `(badgeId, wallet)` in `claimedPairs`; `owners`/`uris` are the ERC-721
bookkeeping rows written by `_safeMint`/`_setTokenURI`. -/
structure Chain where
  owner : String
  nextTokenId : Nat
  claimedPairs : List (Nat × String)
  owners : List (Nat × String)
  uris : List (Nat × String)
deriving DecidableEq

inductive TxResult where
  | reverted
  | ok (tokenId : Nat)
deriving DecidableEq

def TxResult.isOk : TxResult → Bool
  | .ok _ => true
  | .reverted => false

/-- `POLPBadge.claimed(user, badgeId)`, i.e. `hasClaimed[badgeId][user]`. -/
def claimedOn (c : Chain) (badgeId : Nat) (user : String) : Bool :=
  c.claimedPairs.contains (badgeId, user)

def zeroAddress : String := "0x0000000000000000000000000000000000000000"

/-- `POLPBadge.claimBadge(to, badgeId, tokenURI)`: `onlyOwner`, then
`require(!hasClaimed[badgeId][to])`, then `_safeMint` (which itself reverts on
the zero address) and `_setTokenURI`, then set the claimed flag. -/
def claimBadgeTx (c : Chain) (sender toAddr : String) (badgeId : Nat) (uri : String) :
    TxResult × Chain :=
  if sender = c.owner then
    if claimedOn c badgeId toAddr then (.reverted, c)
    else if toAddr = zeroAddress then (.reverted, c)
    else
      let t := c.nextTokenId
      (.ok t,
        { owner := c.owner, nextTokenId := t + 1,
          claimedPairs := (badgeId, toAddr) :: c.claimedPairs,
          owners := (t, toAddr) :: c.owners, uris := (t, uri) :: c.uris })
  else (.reverted, c)

structure ClaimCall where
  sender : String
  toAddr : String
  badgeId : Nat
  uri : String

/-- Number of `claimBadge` transactions in `calls` (executed sequentially from
`c`) that succeed for the pair `(user, badgeId)`. -/
def successCount (c : Chain) (calls : List ClaimCall) (user : String) (badgeId : Nat) : Nat :=
  match calls with
  | [] => 0
  | k :: rest =>
    let r := claimBadgeTx c k.sender k.toAddr k.badgeId k.uri
    (if k.toAddr = user ∧ k.badgeId = badgeId ∧ r.1.isOk = true then 1 else 0) +
      successCount r.2 rest user badgeId

/-! ## Badge claim controller (`BadgeController.mintBadge` + `NFTService.mintBadge`) -/

structure UserRec where
  userId : Nat
  walletAddress : String
deriving DecidableEq

structure BadgeRec where
  userId : Nat
  visitId : Nat
  tokenId : Nat
  badgeId : Nat
deriving DecidableEq

/-- Outcomes of `BadgeController.mintBadge`, one per HTTP response: 404 visit,
400 not verified, 409 badge already minted for this visit, 404 user, 409 badge
type already claimed (controller pre-check), the catch-all 500
`Failed to mint badge` (any throw from `NFTService.mintBadge`, including its own
already-claimed re-check and an on-chain `Already claimed` revert), and 201. -/
inductive MintOutcome where
  | visitNotFound
  | visitNotVerified
  | badgeAlreadyForVisit
  | userNotFound
  | badgeTypeAlreadyClaimed
  | mintFailed
  | minted (b : BadgeRec)
deriving DecidableEq

/-- `BadgeController.mintBadge`.  External reads enter as arguments: `visit` is
the visit lookup, `badges` the local badge table, `user` the user lookup;
`chainPre` is what `claimed(wallet, badgeId)` returns at the controller's
pre-check, `chainRe` what it returns at `NFTService.mintBadge`'s own re-check,
`chainExec` whether the pair is claimed when the transaction executes (the two
later reads can differ from `chainPre` under concurrency), and `nextTok` the
contract's `nextTokenId`.  Metadata storage is modelled as succeeding.  No code
path reconciles a ledger-level rejection: every throw lands in the catch. -/
def mintBadge (userId visitId : Nat) (visit : Option VisitRec)
    (badges : List BadgeRec) (user : Option UserRec)
    (chainPre chainRe chainExec : Bool) (nextTok : Nat) :
    MintOutcome × List BadgeRec :=
  match visit with
  | none => (.visitNotFound, badges)
  | some v =>
    if !v.isVerified then (.visitNotVerified, badges)
    else if badges.any (fun b => b.visitId == visitId && b.userId == userId) then
      (.badgeAlreadyForVisit, badges)
    else
      match user with
      | none => (.userNotFound, badges)
      | some _ =>
        let badgeId := generateBadgeId v
        if chainPre then (.badgeTypeAlreadyClaimed, badges)
        else if chainRe then (.mintFailed, badges)
        else if chainExec then (.mintFailed, badges)
        else
          let b : BadgeRec :=
            { userId := userId, visitId := visitId, tokenId := nextTok, badgeId := badgeId }
          (.minted b, b :: badges)

/-! ## Concrete sample data used by the closed theorems below -/

/-- A valid visit attempt carrying an explicit client timestamp (epoch 0). -/
def att42 : VisitAttempt :=
  ⟨"TAG-42", some 45.4642, some 9.19, none, some 0, some "Duomo", none⟩

/-- The visit data `createVisit` derives from `att42` (for any server time). -/
def data42 : VisitData :=
  ⟨1, "TAG-42", some 45.4642, some 9.19, 0, some "Duomo", none⟩

/-- A persisted record holding the fingerprint of `data42`, created at epoch 0. -/
def rec42 : VisitRec :=
  ⟨1, "TAG-42", some 45.4642, some 9.19, some "Duomo", none,
   createVisitHash data42, false, none, 0, 0, .pending⟩

/-- A persisted record whose stored `visitHash` does not match any payload. -/
def recBadHash : VisitRec :=
  ⟨1, "TAG-42", some 45.4642, some 9.19, some "Duomo", none,
   "", false, none, 0, 0, .pending⟩

/-- A verified record, eligible for badge claiming. -/
def recVer : VisitRec :=
  ⟨1, "TAG-42", some 45.4642, some 9.19, some "Duomo", none,
   createVisitHash data42, true, some 50, 0, 0, .verified⟩

/-- A valid visit attempt that omits the timestamp field. -/
def sampleAttempt : VisitAttempt :=
  ⟨"TAG-42", some 45.4642, some 9.19, none, none, some "Duomo", none⟩

/-- The visit data `createVisit` derives from `sampleAttempt` at server time 0. -/
def sampleData : VisitData :=
  ⟨1, "TAG-42", some 45.4642, some 9.19, 0, some "Duomo", none⟩

/-- The record `createVisit 0 1 [] sampleAttempt` persists. -/
def sampleRecord : VisitRec :=
  ⟨1, "TAG-42", some 45.4642, some 9.19, some "Duomo", none,
   createVisitHash sampleData, false, none, 0, 0, .pending⟩

/-- Two records whose `nfcTagId + locationName` concatenations coincide while
every other field differs. -/
def v9a : VisitRec :=
  ⟨1, "TAG-4", some 1, some 2, some "2X", none, "h", true, none, 0, 0, .verified⟩

def v9b : VisitRec :=
  ⟨2, "TAG-42", none, none, some "X", some "d", "h2", false, none, 5, 5, .pending⟩

/-! ## Helper lemmas -/

/-- FIPS 180-4 test vector, validating the SHA-256 embedding. -/
theorem sha256hex_abc_vector :
    sha256hex "abc" = "ba7816bf8f01cfea414140de5dae2223b00361a396177a9cb410ff61f20015ad" := by
  decide

/-- Known Keccak-256 digest of the empty string, validating the Keccak embedding
(`ethers.keccak256(ethers.toUtf8Bytes(""))`). -/
theorem keccak256hex_empty_vector :
    keccak256hex "" = "0xc5d2460186f7233c927e7db2dcc703c0e500b653ca82273b7bfad8045d85a470" := by
  decide

theorem strLen_append (s t : String) : (s ++ t).length = s.length + t.length := by
  cases s with
  | mk l1 =>
    cases t with
    | mk l2 => simp [String.length, String.append]

theorem byteToHex_length (b : Nat) : (byteToHex b).length = 2 := rfl

theorem bytesToHex_length (l : List Nat) : (bytesToHex l).length = 2 * l.length := by
  induction l with
  | nil => rfl
  | cons b bs ih =>
    simp only [bytesToHex, strLen_append, byteToHex_length, ih, List.length_cons]
    ring

theorem sha256_length (msg : List Nat) : (sha256 msg).length = 32 := by
  simp [sha256, wordToBytesBE, List.length_append]

theorem sha256hex_length (s : String) : (sha256hex s).length = 64 := by
  simp [sha256hex, bytesToHex_length, sha256_length]

theorem createVisitHash_ne_empty (d : VisitData) : createVisitHash d ≠ "" := by
  intro h
  have h2 := congrArg String.length h
  rw [createVisitHash, sha256hex_length] at h2
  simp [String.length] at h2

unseal Rat.ofScientific Rat.mul Rat.add Rat.inv Rat.sub

/-! ## Claim C7 -/

/-- C7: `validateCoordinates(lat, lon)` fails exactly when a value is
non-numeric, `lat ∉ [-90, 90]`, `lon ∉ [-180, 180]`, or `(lat, lon) = (0, 0)`;
in particular `(0,0)` is always invalid and `(45.0, 9.0)` is valid. -/
theorem c7_validate_coordinates_iff :
    (∀ la lo : ℚ, validateCoordinates (some la) (some lo) = false ↔
      (la < -90 ∨ 90 < la ∨ lo < -180 ∨ 180 < lo ∨ (la = 0 ∧ lo = 0))) ∧
    (∀ lo, validateCoordinates none lo = false) ∧
    (∀ la, validateCoordinates la none = false) ∧
    validateCoordinates (some 0) (some 0) = false ∧
    validateCoordinates (some 45) (some 9) = true := by
  refine ⟨?_, fun lo => rfl, fun la => by cases la <;> rfl, by decide, by decide⟩
  intro la lo
  simp only [validateCoordinates, Bool.and_eq_false_iff, Bool.not_eq_false',
    Bool.and_eq_true, decide_eq_true_eq, decide_eq_false_iff_not, not_le]
  tauto

/-! ## Claim C2 -/

/-- C2: `createVisitHash` is a pure function of exactly
`(userId, nfcTagId, round(latitude, 8), round(longitude, 8), timestamp)`: equal
logical values (up to the 8-decimal rendering of the coordinates) give
byte-identical hashes, and no other field of the input influences the result. -/
theorem c2_fingerprint_pure_function (d1 d2 : VisitData)
    (hu : d1.userId = d2.userId) (hn : d1.nfcTagId = d2.nfcTagId)
    (hla : toFixed8 d1.latitude = toFixed8 d2.latitude)
    (hlo : toFixed8 d1.longitude = toFixed8 d2.longitude)
    (ht : d1.timestamp = d2.timestamp) :
    createVisitHash d1 = createVisitHash d2 := by
  simp only [createVisitHash, canonicalVisitString, hu, hn, hla, hlo, ht]

/-- C2 witness: a latitude differing only beyond the 8th decimal and changed
`locationName`/`description` leave the fingerprint unchanged. -/
theorem c2_fingerprint_witness :
    toFixed8 (some (45.4642 : ℚ)) = toFixed8 (some (45.464200001 : ℚ)) ∧
    createVisitHash ⟨1, "TAG-42", some 45.4642, some 9.19, 0, some "Duomo", none⟩ =
      createVisitHash ⟨1, "TAG-42", some 45.464200001, some 9.19, 0, none, some "x"⟩ :=
  ⟨by decide,
   c2_fingerprint_pure_function _ _ rfl rfl (by decide) (by decide) rfl⟩

/-! ## Claim C9 -/

/-- C9: `generateBadgeId` is deterministic and bounded: it is a function of the
concatenation `nfcTagId + locationName` alone (hash of the concatenation), and
the reduction keeps the result inside the bounded category space `[0, 10000)`. -/
theorem c9_badge_id_deterministic_bounded :
    (∀ v : VisitRec, generateBadgeId v < 10000) ∧
    (∀ v1 v2 : VisitRec,
      jsAdd v1.nfcTagId v1.locationName = jsAdd v2.nfcTagId v2.locationName →
      generateBadgeId v1 = generateBadgeId v2) := by
  constructor
  · intro v
    exact Nat.mod_lt _ (by norm_num)
  · intro v1 v2 h
    simp only [generateBadgeId, h]

/-- C9 witness: two visits at the same physical location (equal concatenation)
but with every other field different get the same badge category id. -/
theorem c9_badge_id_witness :
    jsAdd v9a.nfcTagId v9a.locationName = jsAdd v9b.nfcTagId v9b.locationName ∧
    generateBadgeId v9a = generateBadgeId v9b :=
  ⟨rfl, c9_badge_id_deterministic_bounded.2 v9a v9b rfl⟩

/-! ## Claim C8 -/

/-- C8: evaluation of `generateAuthChallenge` at a failing input.  The nonce is
`Math.random().toString(36).substring(7)`; `Math.random` is a non-cryptographic
PRNG, and when it yields `0` (rendered `"0"`), the nonce is the empty string:
the challenge embeds no nonce at all, so two attempts in the same millisecond
receive the identical, replayable message.  This refutes the claimed
fresh-unpredictable-nonce property at this input. -/
theorem c8_nonce_empty_at_zero :
    generateAuthChallenge "0xAbCd" 1700000000000 "0" =
      "POGPP Authentication Challenge\n\nWallet: 0xAbCd\nTimestamp: " ++
      "1700000000000\nNonce: " := by
  decide

/-! ## Claim C6 -/

/-- C6 (amended): `validateGPSAccuracy` accepts exactly the numeric values in
`[0, maxAllowed]` (default 100) and rejects non-numeric input; but `createVisit`
performs no accuracy check at all — its result is independent of the attempt's
`accuracy` field, so a worse-than-threshold fix is never rejected. -/
theorem c6_accuracy_validation :
    (∀ acc maxA : ℚ, validateGPSAccuracy (some acc) maxA = true ↔ (0 ≤ acc ∧ acc ≤ maxA)) ∧
    (∀ maxA : ℚ, validateGPSAccuracy none maxA = false) ∧
    validateGPSAccuracy (some 150) = false ∧
    (∀ (now : Int) (uid : Nat) (store : List VisitRec) (a : VisitAttempt) (q : Option ℚ),
      createVisit now uid store { a with accuracy := q } = createVisit now uid store a) := by
  refine ⟨?_, fun _ => rfl, by decide, fun _ _ _ _ _ => rfl⟩
  intro acc maxA
  by_cases h : acc < 0
  · simp [validateGPSAccuracy, h, not_le.mpr h]
  · simp [validateGPSAccuracy, h, not_lt.mp h]

/-- C6 counterexample: an attempt reporting 5000 m accuracy — far worse than the
100 m threshold `validateGPSAccuracy` would enforce — is admitted by
`createVisit` (no `InsufficientAccuracy` rejection exists in the flow). -/
theorem c6_counterexample :
    validateGPSAccuracy (some 5000) = false ∧
    isCreated (createVisit 0 1 []
      ⟨"TAG-42", some 45.4642, some 9.19, some 5000, some 0, some "Duomo", none⟩).1 = true := by
  constructor
  · decide
  · decide

/-! ## Claim C3 -/

theorem claimed_mono (c : Chain) (s t : String) (bid : Nat) (uri : String)
    (b : Nat) (u : String) (h : claimedOn c b u = true) :
    claimedOn (claimBadgeTx c s t bid uri).2 b u = true := by
  have hmem : (b, u) ∈ c.claimedPairs := by simpa [claimedOn] using h
  by_cases h1 : s = c.owner
  · by_cases h2 : (bid, t) ∈ c.claimedPairs
    · simp [claimBadgeTx, h1, claimedOn, h2, hmem]
    · by_cases h3 : t = zeroAddress
      · simp [claimBadgeTx, h1, claimedOn, h2, h3, hmem]
      · simp [claimBadgeTx, h1, claimedOn, h2, h3, hmem]
  · simp [claimBadgeTx, h1, claimedOn, hmem]

theorem claimBadgeTx_ok_sets (c : Chain) (s t : String) (bid : Nat) (uri : String)
    (h : (claimBadgeTx c s t bid uri).1.isOk = true) :
    claimedOn (claimBadgeTx c s t bid uri).2 bid t = true := by
  by_cases h1 : s = c.owner
  · by_cases h2 : (bid, t) ∈ c.claimedPairs
    · simp [claimBadgeTx, h1, claimedOn, h2, TxResult.isOk] at h
    · by_cases h3 : t = zeroAddress
      · simp [claimBadgeTx, h1, claimedOn, h2, h3, TxResult.isOk] at h
      · simp [claimBadgeTx, h1, claimedOn, h2, h3]
  · simp [claimBadgeTx, h1, TxResult.isOk] at h

theorem claimBadgeTx_reverts_of_claimed (c : Chain) (s t : String) (bid : Nat)
    (uri : String) (h : claimedOn c bid t = true) :
    (claimBadgeTx c s t bid uri).1 = TxResult.reverted := by
  by_cases h1 : s = c.owner
  · simp [claimBadgeTx, h1, h]
  · simp [claimBadgeTx, h1]

theorem successCount_zero_of_claimed (calls : List ClaimCall) :
    ∀ (c : Chain) (u : String) (b : Nat), claimedOn c b u = true →
      successCount c calls u b = 0 := by
  induction calls with
  | nil => intro c u b _; rfl
  | cons k rest ih =>
    intro c u b h
    have hm := claimed_mono c k.sender k.toAddr k.badgeId k.uri b u h
    have hhead : ¬(k.toAddr = u ∧ k.badgeId = b ∧
        (claimBadgeTx c k.sender k.toAddr k.badgeId k.uri).1.isOk = true) := by
      rintro ⟨rfl, rfl, hok⟩
      rw [claimBadgeTx_reverts_of_claimed c k.sender k.toAddr k.badgeId k.uri h] at hok
      simp [TxResult.isOk] at hok
    simp only [successCount]
    rw [if_neg hhead, ih _ _ _ hm]

theorem successCount_le (calls : List ClaimCall) :
    ∀ (c : Chain) (u : String) (b : Nat),
      successCount c calls u b ≤ if claimedOn c b u = true then 0 else 1 := by
  induction calls with
  | nil =>
    intro c u b
    simp only [successCount]
    split <;> simp
  | cons k rest ih =>
    intro c u b
    by_cases hc : claimedOn c b u = true
    · rw [successCount_zero_of_claimed (k :: rest) c u b hc]
      simp [hc]
    · rw [if_neg hc]
      simp only [successCount]
      by_cases hm : k.toAddr = u ∧ k.badgeId = b ∧
          (claimBadgeTx c k.sender k.toAddr k.badgeId k.uri).1.isOk = true
      · rw [if_pos hm]
        obtain ⟨e1, e2, hok⟩ := hm
        have hset := claimBadgeTx_ok_sets c k.sender k.toAddr k.badgeId k.uri hok
        have hset2 : claimedOn (claimBadgeTx c k.sender k.toAddr k.badgeId k.uri).2 b u = true := by
          rw [← e1, ← e2]; exact hset
        rw [successCount_zero_of_claimed rest _ u b hset2]
      · rw [if_neg hm]
        have htail := ih (claimBadgeTx c k.sender k.toAddr k.badgeId k.uri).2 u b
        have h1 : (if claimedOn (claimBadgeTx c k.sender k.toAddr k.badgeId k.uri).2 b u = true
            then 0 else 1) ≤ 1 := by split <;> simp
        simpa using le_trans htail h1

/-- C3: the ledger contract itself enforces at-most-one successful
`claimBadge` per `(user address, badge id)` pair: over any sequence of calls at
most one succeeds for the pair, a success sets the claimed flag, and once the
flag is set every later `claimBadge` for the pair reverts — independent of any
caller-side pre-checks. -/
theorem c3_at_most_one_claim :
    (∀ (c : Chain) (calls : List ClaimCall) (u : String) (b : Nat),
      successCount c calls u b ≤ if claimedOn c b u = true then 0 else 1) ∧
    (∀ (c : Chain) (s t : String) (bid : Nat) (uri : String),
      (claimBadgeTx c s t bid uri).1.isOk = true →
      claimedOn (claimBadgeTx c s t bid uri).2 bid t = true) ∧
    (∀ (c : Chain) (s t : String) (bid : Nat) (uri : String),
      claimedOn c bid t = true → (claimBadgeTx c s t bid uri).1 = TxResult.reverted) :=
  ⟨fun c calls u b => successCount_le calls c u b,
   claimBadgeTx_ok_sets,
   claimBadgeTx_reverts_of_claimed⟩

/-- C3 witness: a fresh claim succeeds and sets the flag; with the flag set, the
same claim reverts. -/
theorem c3_claim_witness :
    (claimBadgeTx (Chain.mk "op" 0 [] [] []) "op" "0xA" 7 "u").1.isOk = true ∧
    claimedOn (claimBadgeTx (Chain.mk "op" 0 [] [] []) "op" "0xA" 7 "u").2 7 "0xA" = true ∧
    claimedOn (Chain.mk "op" 5 [(7, "0xA")] [] []) 7 "0xA" = true ∧
    (claimBadgeTx (Chain.mk "op" 5 [(7, "0xA")] [] []) "op" "0xA" 7 "u").1 =
      TxResult.reverted :=
  ⟨by decide,
   c3_at_most_one_claim.2.1 (Chain.mk "op" 0 [] [] []) "op" "0xA" 7 "u" (by decide),
   by decide,
   c3_at_most_one_claim.2.2 (Chain.mk "op" 5 [(7, "0xA")] [] []) "op" "0xA" 7 "u" (by decide)⟩

/-! ## Claim C1 -/

theorem createVisit_hash_conflict
    (now : Int) (uid : Nat) (store : List VisitRec) (a : VisitAttempt) (r : VisitRec)
    (hval : validateCoordinates a.latitude a.longitude = true)
    (hrec : store.any (recentDuplicate now uid a) = false)
    (hmem : r ∈ store)
    (hhash : r.visitHash = createVisitHash (mkVisitData uid a now)) :
    createVisit now uid store a = (CreateResult.genericError, store) := by
  have hany : store.any (fun rr => rr.visitHash == createVisitHash (mkVisitData uid a now)) = true :=
    List.any_eq_true.mpr ⟨r, hmem, by simp [hhash]⟩
  simp [createVisit, hval, hrec, hany]

/-- C1 (amended): when a record with the attempt's exact fingerprint already
exists — even one old enough that the `(userId, nfcTagId)` recency-window check
passes — `createVisit` fails and creates nothing, but the failure is the
catch-all generic error (HTTP 500 `Failed to create visit`, from the unique
index on `visitHash`), not a typed `DuplicateFingerprint` distinct from a
generic failure: no such typed outcome exists in the code. -/
theorem c1_duplicate_fingerprint_generic_failure
    (now : Int) (uid : Nat) (store : List VisitRec) (a : VisitAttempt) (r : VisitRec)
    (hval : validateCoordinates a.latitude a.longitude = true)
    (hrec : store.any (recentDuplicate now uid a) = false)
    (hmem : r ∈ store)
    (hhash : r.visitHash = createVisitHash (mkVisitData uid a now)) :
    createVisit now uid store a = (CreateResult.genericError, store) :=
  createVisit_hash_conflict now uid store a r hval hrec hmem hhash

/-- C1 counterexample: a resubmission of `att42` one hour after `rec42` was
created (recency window elapsed, as the second conjunct shows) computes the same
fingerprint, and the call surfaces `genericError` — the same generic 500 as any
other thrown failure — refuting that the second call fails with a typed
`DuplicateFingerprint` distinct from a generic failure. -/
theorem c1_no_typed_duplicate_counterexample :
    createVisit 3600000 1 [rec42] att42 = (CreateResult.genericError, [rec42]) ∧
    recentDuplicate 3600000 1 att42 rec42 = false :=
  ⟨createVisit_hash_conflict 3600000 1 [rec42] att42 rec42 (by decide) (by decide)
    (by simp) rfl,
   by decide⟩

/-- C1 witness: the hypotheses of `c1_duplicate_fingerprint_generic_failure` are
satisfiable at a concrete store and attempt, and its conclusion follows there. -/
theorem c1_generic_failure_witness :
    validateCoordinates att42.latitude att42.longitude = true ∧
    [rec42].any (recentDuplicate 3600000 1 att42) = false ∧
    rec42 ∈ [rec42] ∧
    createVisit 3600000 1 [rec42] att42 = (CreateResult.genericError, [rec42]) :=
  ⟨by decide, by decide, by simp,
   c1_duplicate_fingerprint_generic_failure 3600000 1 [rec42] att42 rec42
     (by decide) (by decide) (by simp) rfl⟩

/-! ## Claim C4 -/

/-- C4 (amended): `verifyVisitForNFT` on an unverified record with an intact
payload sets `isVerified` and `verifiedAt` but leaves the `status` column
unchanged (no `pending → verified` transition of `status`); on a payload whose
recomputed fingerprint differs from the stored one it surfaces the integrity
error (it never silently passes) and leaves the record entirely unchanged — in
particular it is not transitioned to `flagged` — and an unverified record stays
unclaimable (`mintBadge` rejects it with `visitNotVerified`). -/
theorem c4_verify_visit_behavior :
    (∀ (now : Int) (v : VisitRec) (p : VisitData),
      v.isVerified = false → verifyVisitHash p v.visitHash = true →
      verifyVisitForNFT now (some v) p =
        (VerifyOutcome.verifiedOk, some { v with isVerified := true, verifiedAt := some now }) ∧
      ({ v with isVerified := true, verifiedAt := some now } : VisitRec).status = v.status) ∧
    (∀ (now : Int) (v : VisitRec) (p : VisitData),
      v.isVerified = false → verifyVisitHash p v.visitHash = false →
      verifyVisitForNFT now (some v) p = (VerifyOutcome.integrityFailed, some v)) ∧
    (∀ (uid vid : Nat) (v : VisitRec) (badges : List BadgeRec) (user : Option UserRec)
      (q1 q2 q3 : Bool) (nt : Nat), v.isVerified = false →
      mintBadge uid vid (some v) badges user q1 q2 q3 nt =
        (MintOutcome.visitNotVerified, badges)) := by
  refine ⟨?_, ?_, ?_⟩
  · intro now v p h1 h2
    exact ⟨by simp [verifyVisitForNFT, h1, h2], rfl⟩
  · intro now v p h1 h2
    simp [verifyVisitForNFT, h1, h2]
  · intro uid vid v badges user q1 q2 q3 nt h
    simp [mintBadge, h]

/-- C4 counterexample: on a fingerprint mismatch the record is left with status
`pending`, not `flagged`; and on a match the updated record's status is still
`pending`, not `verified` — refuting both claimed `status` transitions. -/
theorem c4_no_status_transition_counterexample :
    (verifyVisitForNFT 99 (some recBadHash) data42 =
      (VerifyOutcome.integrityFailed, some recBadHash) ∧
     recBadHash.status = VStatus.pending) ∧
    (verifyVisitForNFT 99 (some rec42) data42 =
      (VerifyOutcome.verifiedOk, some { rec42 with isVerified := true, verifiedAt := some 99 }) ∧
     ({ rec42 with isVerified := true, verifiedAt := some 99 } : VisitRec).status =
       VStatus.pending) := by
  refine ⟨⟨?_, rfl⟩, ⟨?_, rfl⟩⟩
  · have hne : createVisitHash data42 ≠ "" := createVisitHash_ne_empty data42
    have hmiss : verifyVisitHash data42 recBadHash.visitHash = false := by
      simpa [verifyVisitHash, recBadHash, beq_eq_false_iff_ne] using hne
    have hunv : recBadHash.isVerified = false := rfl
    simp [verifyVisitForNFT, hunv, hmiss]
  · have hmatch : verifyVisitHash data42 rec42.visitHash = true := by
      simp [verifyVisitHash, rec42]
    have hunv : rec42.isVerified = false := rfl
    simp [verifyVisitForNFT, hunv, hmatch]

/-- C4 witness: the hypotheses of `c4_verify_visit_behavior` hold at a concrete
record and payload, and the conclusions follow there. -/
theorem c4_verify_visit_witness :
    rec42.isVerified = false ∧
    verifyVisitHash data42 rec42.visitHash = true ∧
    verifyVisitForNFT 7 (some rec42) data42 =
      (VerifyOutcome.verifiedOk, some { rec42 with isVerified := true, verifiedAt := some 7 }) :=
  ⟨rfl, by simp [verifyVisitHash, rec42],
   (c4_verify_visit_behavior.1 7 rec42 data42 rfl (by simp [verifyVisitHash, rec42])).1⟩

/-! ## Claim C5 -/

/-- C5 (amended): when the controller's pre-mint already-claimed check passes
(`chainPre = false`) but the ledger path then finds the pair already claimed —
at the re-check inside `NFTService.mintBadge` (`chainRe = true`, its throw) or
only when the transaction executes and reverts (`chainRe = false`,
`chainExec = true`) — `mintBadge` returns the catch-all `mintFailed` (HTTP 500
`Failed to mint badge`) to the user and writes no local badge record: there is
no success-equivalent treatment, no fetch of the existing on-chain claim, and
no reconciliation of the local record, in either race case. -/
theorem c5_race_errors_no_reconcile :
    ∀ (uid vid : Nat) (v : VisitRec) (badges : List BadgeRec) (u : UserRec)
      (chainRe chainExec : Bool) (nt : Nat),
      v.isVerified = true →
      badges.any (fun b => b.visitId == vid && b.userId == uid) = false →
      (chainRe = true ∨ chainExec = true) →
      mintBadge uid vid (some v) badges (some u) false chainRe chainExec nt =
        (MintOutcome.mintFailed, badges) := by
  intro uid vid v badges u chainRe chainExec nt h1 h2 h3
  rcases h3 with h3 | h3
  · subst h3
    simp [mintBadge, h1, h2]
  · subst h3
    cases chainRe <;> simp [mintBadge, h1, h2]

/-- C5 counterexample: in both race shapes — already claimed at the service's
re-check, and clean at the re-check but reverted at transaction execution — the
user gets `mintFailed`, an error, and the local badge table is unchanged,
refuting "treats the outcome as success-equivalent ... reconciles the local
BadgeClaim record instead of returning an error". -/
theorem c5_no_reconcile_counterexample :
    mintBadge 1 10 (some recVer) [] (some ⟨1, "0xA"⟩) false true false 0 =
      (MintOutcome.mintFailed, []) ∧
    mintBadge 1 10 (some recVer) [] (some ⟨1, "0xA"⟩) false false true 0 =
      (MintOutcome.mintFailed, []) := by
  constructor
  · decide
  · decide

/-- C5 witness: the hypotheses of `c5_race_errors_no_reconcile` are satisfiable
and its conclusion follows at a concrete verified visit, in both the
rejected-at-re-check and the reverted-at-execution case. -/
theorem c5_race_witness :
    recVer.isVerified = true ∧
    ([] : List BadgeRec).any (fun b => b.visitId == 10 && b.userId == 1) = false ∧
    mintBadge 1 10 (some recVer) [] (some ⟨1, "0xA"⟩) false true false 0 =
      (MintOutcome.mintFailed, []) ∧
    mintBadge 1 10 (some recVer) [] (some ⟨1, "0xA"⟩) false false true 0 =
      (MintOutcome.mintFailed, []) :=
  ⟨rfl, rfl,
   c5_race_errors_no_reconcile 1 10 recVer [] ⟨1, "0xA"⟩ true false 0 rfl rfl (Or.inl rfl),
   c5_race_errors_no_reconcile 1 10 recVer [] ⟨1, "0xA"⟩ false true 0 rfl rfl (Or.inr rfl)⟩

/-! ## Claim C10 -/

/-- C10: when the attempt omits `timestamp`, `createVisit` substitutes the
server's current time: the persisted record's `timestamp` is `now` and its
fingerprint is computed over `now` (first conjunct, for every store and
attempt); concretely, the same timestamp-less attempt submitted at epoch 0 and
again one hour later is admitted both times — not rejected as a duplicate — and
the two substituted times yield different fingerprints (remaining conjuncts). -/
theorem c10_timestamp_substitution :
    (∀ (now : Int) (uid : Nat) (store : List VisitRec) (a : VisitAttempt)
       (v : VisitRec) (s2 : List VisitRec),
      a.timestamp = none →
      createVisit now uid store a = (CreateResult.created v, s2) →
      v.timestamp = now ∧
      v.visitHash = createVisitHash
        ⟨uid, a.nfcTagId, a.latitude, a.longitude, now, a.locationName, a.description⟩) ∧
    isCreated (createVisit 0 1 [] sampleAttempt).1 = true ∧
    isCreated (createVisit 3600000 1 (createVisit 0 1 [] sampleAttempt).2 sampleAttempt).1 = true ∧
    createVisitHash ⟨1, "TAG-42", some 45.4642, some 9.19, 0, some "Duomo", none⟩ ≠
      createVisitHash ⟨1, "TAG-42", some 45.4642, some 9.19, 3600000, some "Duomo", none⟩ := by
  refine ⟨?_, by decide, by decide, by decide⟩
  intro now uid store a v s2 ha h
  simp only [createVisit] at h
  split at h
  · simp at h
  · split at h
    · simp at h
    · split at h
      · simp at h
      · simp only [Prod.mk.injEq, CreateResult.created.injEq] at h
        obtain ⟨hv, _⟩ := h
        constructor
        · rw [← hv]
          simp [mkVisitData, ha]
        · rw [← hv]
          simp [mkVisitData, ha]

/-- C10 witness: the substitution result of `c10_timestamp_substitution` at the
concrete timestamp-less attempt `sampleAttempt` submitted at server time 0. -/
theorem c10_substitution_witness :
    sampleAttempt.timestamp = none ∧
    sampleRecord.timestamp = 0 ∧
    sampleRecord.visitHash = createVisitHash sampleData :=
  ⟨rfl,
   (c10_timestamp_substitution.1 0 1 [] sampleAttempt sampleRecord [sampleRecord] rfl rfl).1,
   (c10_timestamp_substitution.1 0 1 [] sampleAttempt sampleRecord [sampleRecord] rfl rfl).2⟩
